import Mathlib

/-!
Shallow embedding of the Robusta course-brochure extraction pipeline
(src/document_processing/text_cleaner.py, course_extractor.py,
pdf_loader.py).  Texts are lists of characters, Python `re` operations
are interpreted by a small fuel-based backtracking matcher, and the
cleaner / extractor / document-builder functions are transcribed from
the source.  The theorems at the end settle the specification claims.
-/

set_option maxRecDepth 200000
set_option maxHeartbeats 8000000

abbrev Str := List Char

def str (s : String) : Str := s.data

/-- Lower-case map covering ASCII and the Latin-1 / Latin Extended /
Vietnamese precomposed ranges used by this corpus (models Python
`str.lower` on those characters). -/
def toLowerChar (c : Char) : Char :=
  let n := c.toNat
  if 65 ≤ n ∧ n ≤ 90 then Char.ofNat (n + 32)
  else if 192 ≤ n ∧ n ≤ 222 ∧ n ≠ 215 then Char.ofNat (n + 32)
  else if 256 ≤ n ∧ n ≤ 382 ∧ n % 2 = 0 then Char.ofNat (n + 1)
  else if n = 416 ∨ n = 431 then Char.ofNat (n + 1)
  else if 7680 ≤ n ∧ n ≤ 7928 ∧ n % 2 = 0 then Char.ofNat (n + 1)
  else c

/-- Upper-case map, inverse of `toLowerChar` on the same ranges. -/
def toUpperChar (c : Char) : Char :=
  let n := c.toNat
  if 97 ≤ n ∧ n ≤ 122 then Char.ofNat (n - 32)
  else if 224 ≤ n ∧ n ≤ 254 ∧ n ≠ 247 then Char.ofNat (n - 32)
  else if 257 ≤ n ∧ n ≤ 383 ∧ n % 2 = 1 then Char.ofNat (n - 1)
  else if n = 417 ∨ n = 432 then Char.ofNat (n - 1)
  else if 7681 ≤ n ∧ n ≤ 7929 ∧ n % 2 = 1 then Char.ofNat (n - 1)
  else c

/-- Python regex `\d` (ASCII digits; no non-ASCII digits occur in this corpus). -/
def isPyDigit (c : Char) : Bool := 48 ≤ c.toNat && c.toNat ≤ 57

/-- Python regex `\s` (ASCII whitespace; no exotic spaces occur in this corpus). -/
def isPySpace (c : Char) : Bool :=
  c == ' ' || c == '\t' || c == '\n' || c == '\x0d' || c == '\x0b' || c == '\x0c'

/-- Python regex `\w` with `re.UNICODE`: alphanumerics plus underscore; the
Unicode letters are modelled over the Latin ranges occurring in this corpus. -/
def isPyWord (c : Char) : Bool :=
  let n := c.toNat
  (48 ≤ n && n ≤ 57) || (65 ≤ n && n ≤ 90) || (97 ≤ n && n ≤ 122) || n == 95 ||
  (192 ≤ n && n ≤ 7929 && n ≠ 215 && n ≠ 247)

/- ------------------------------------------------------------------ -/
/- A small interpreter for the fragment of Python `re` used by the
   pipeline: literals, classes, `.` , anchors, alternation, greedy and
   lazy quantifiers, `{n}` repetition, groups and lookahead, with the
   IGNORECASE / MULTILINE / DOTALL flags. -/

inductive CItem where
  | ch (c : Char)
  | range (a b : Char)
  | dcls
  | wcls
  | scls
deriving DecidableEq, Repr

inductive RE where
  | eps
  | lit (c : Char)
  | cls (neg : Bool) (items : List CItem)
  | dot
  | bol
  | eol
  | seq (a b : RE)
  | alt (a b : RE)
  | star (lz : Bool) (r : RE)
  | opt (lz : Bool) (r : RE)
  | group (i : Nat) (r : RE)
  | look (r : RE)
deriving DecidableEq, Repr

def pClassItems : Nat → Str → List CItem → Option (List CItem × Str)
  | 0, _, _ => none
  | f + 1, s, acc =>
    match s with
    | [] => none
    | ']' :: rest => some (acc.reverse, rest)
    | '\\' :: c :: rest =>
        let it : CItem :=
          if c = 'd' then .dcls else if c = 'w' then .wcls else if c = 's' then .scls
          else if c = 'n' then .ch '\n' else if c = 't' then .ch '\t' else .ch c
        pClassItems f rest (it :: acc)
    | a :: '-' :: b :: rest =>
        if b = ']' then pClassItems f ('-' :: b :: rest) (.ch a :: acc)
        else pClassItems f rest (.range a b :: acc)
    | a :: rest => pClassItems f rest (.ch a :: acc)

def pNum : Str → Nat → Bool → Option (Nat × Str)
  | [], acc, seen => if seen then some (acc, []) else none
  | c :: rest, acc, seen =>
      if isPyDigit c then pNum rest (acc * 10 + (c.toNat - 48)) true
      else if seen then some (acc, c :: rest) else none

def repN : Nat → RE → RE
  | 0, _ => .eps
  | 1, r => r
  | n + 2, r => .seq r (repN (n + 1) r)

def pQuant (a : RE) (s : Str) : Option (RE × Str) :=
  match s with
  | '*' :: '?' :: rest => some (.star true a, rest)
  | '*' :: rest => some (.star false a, rest)
  | '+' :: '?' :: rest => some (.seq a (.star true a), rest)
  | '+' :: rest => some (.seq a (.star false a), rest)
  | '?' :: '?' :: rest => some (.opt true a, rest)
  | '?' :: rest => some (.opt false a, rest)
  | '{' :: rest =>
      match pNum rest 0 false with
      | some (n, '}' :: rest2) => some (repN n a, rest2)
      | _ => none
  | _ => some (a, s)

/-- Recursive-descent parser; mode 0 parses an alternation, mode 1 a
concatenation, any other mode a single quantified atom.  `gi` is the next
capturing-group number (Python numbers groups by opening parenthesis). -/
def pR : Nat → Nat → Str → Nat → Option (RE × Str × Nat)
  | 0, _, _, _ => none
  | f + 1, 0, s, gi =>
      match pR f 1 s gi with
      | none => none
      | some (a, rest, gi2) =>
          match rest with
          | '|' :: rest2 =>
              match pR f 0 rest2 gi2 with
              | none => none
              | some (b, rest3, gi3) => some (.alt a b, rest3, gi3)
          | _ => some (a, rest, gi2)
  | f + 1, 1, s, gi =>
      match s with
      | [] => some (.eps, s, gi)
      | ')' :: _ => some (.eps, s, gi)
      | '|' :: _ => some (.eps, s, gi)
      | _ =>
          match pR f 2 s gi with
          | none => none
          | some (a, rest, gi2) =>
              match pR f 1 rest gi2 with
              | none => none
              | some (b, rest2, gi3) =>
                  some (match b with | .eps => a | _ => .seq a b, rest2, gi3)
  | f + 1, _, s, gi =>
      match s with
      | '(' :: '?' :: ':' :: rest =>
          match pR f 0 rest gi with
          | some (e, ')' :: rest2, gi2) =>
              match pQuant e rest2 with
              | some (q, rest3) => some (q, rest3, gi2)
              | none => none
          | _ => none
      | '(' :: '?' :: '=' :: rest =>
          match pR f 0 rest gi with
          | some (e, ')' :: rest2, gi2) =>
              match pQuant (RE.look e) rest2 with
              | some (q, rest3) => some (q, rest3, gi2)
              | none => none
          | _ => none
      | '(' :: rest =>
          match pR f 0 rest (gi + 1) with
          | some (e, ')' :: rest2, gi2) =>
              match pQuant (RE.group gi e) rest2 with
              | some (q, rest3) => some (q, rest3, gi2)
              | none => none
          | _ => none
      | '[' :: '^' :: rest =>
          match pClassItems f rest [] with
          | some (items, rest2) =>
              match pQuant (RE.cls true items) rest2 with
              | some (q, rest3) => some (q, rest3, gi)
              | none => none
          | none => none
      | '[' :: rest =>
          match pClassItems f rest [] with
          | some (items, rest2) =>
              match pQuant (RE.cls false items) rest2 with
              | some (q, rest3) => some (q, rest3, gi)
              | none => none
          | none => none
      | '\\' :: c :: rest =>
          let a : Option RE :=
            if c = 'd' then some (.cls false [.dcls])
            else if c = 'w' then some (.cls false [.wcls])
            else if c = 's' then some (.cls false [.scls])
            else if c = 'n' then some (.lit '\n')
            else if c = 't' then some (.lit '\t')
            else if isPyDigit c then none
            else some (.lit c)
          match a with
          | some a =>
              match pQuant a rest with
              | some (q, rest2) => some (q, rest2, gi)
              | none => none
          | none => none
      | '.' :: rest =>
          match pQuant RE.dot rest with
          | some (q, rest2) => some (q, rest2, gi)
          | none => none
      | '^' :: rest => some (.bol, rest, gi)
      | '$' :: rest => some (.eol, rest, gi)
      | c :: rest =>
          match pQuant (RE.lit c) rest with
          | some (q, rest2) => some (q, rest2, gi)
          | none => none
      | [] => none

/-- Parse a whole pattern; a leading `(?i)` inline flag is returned as a Bool. -/
def topParse (pat : Str) : Option (RE × Bool) :=
  let p := match pat with
    | '(' :: '?' :: 'i' :: ')' :: rest => (true, rest)
    | _ => (false, pat)
  match pR (8 * p.2.length + 16) 0 p.2 1 with
  | some (r, [], _) => some (r, p.1)
  | _ => none

structure RFlags where
  ic : Bool
  ml : Bool
  ds : Bool
deriving Repr

def flNone : RFlags := ⟨false, false, false⟩
def flI : RFlags := ⟨true, false, false⟩
def flIM : RFlags := ⟨true, true, false⟩
def flID : RFlags := ⟨true, false, true⟩
def flD : RFlags := ⟨false, false, true⟩

def chEqB (ic : Bool) (p c : Char) : Bool :=
  if ic then toLowerChar p == toLowerChar c else p == c

def inCItem (c : Char) : CItem → Bool
  | .ch a => c == a
  | .range a b => a.toNat ≤ c.toNat && c.toNat ≤ b.toNat
  | .dcls => isPyDigit c
  | .wcls => isPyWord c
  | .scls => isPySpace c

/-- Class membership; with IGNORECASE a character matches if any of its case
variants is in the class (Python semantics). -/
def inClassB (ic neg : Bool) (items : List CItem) (c : Char) : Bool :=
  let mem := fun x => items.any (inCItem x)
  let hit := if ic then mem c || mem (toLowerChar c) || mem (toUpperChar c) else mem c
  if neg then !hit else hit

/-- Capture list: (group index, start, end), most recent first. -/
abbrev Caps := List (Nat × Nat × Nat)

/-- Backtracking matcher in continuation-passing style.  `t` is the whole
subject (used by anchors), `rest` the suffix at `pos`; results are produced
in Python preference order (first success wins).  Fuel bounds the nesting of
recursive calls. -/
def mAt (fl : RFlags) (t : Str) : Nat → RE → Str → Nat → Caps →
    (Str → Nat → Caps → Option (Nat × Caps)) → Option (Nat × Caps)
  | 0, _, _, _, _, _ => none
  | f + 1, r, rest, pos, cp, k =>
    match r with
    | .eps => k rest pos cp
    | .lit c =>
        match rest with
        | [] => none
        | a :: rs => if chEqB fl.ic c a then k rs (pos + 1) cp else none
    | .cls neg items =>
        match rest with
        | [] => none
        | a :: rs => if inClassB fl.ic neg items a then k rs (pos + 1) cp else none
    | .dot =>
        match rest with
        | [] => none
        | a :: rs => if a == '\n' && !fl.ds then none else k rs (pos + 1) cp
    | .bol =>
        if pos == 0 || (fl.ml && (t.get? (pos - 1) == some '\n')) then k rest pos cp else none
    | .eol =>
        match rest with
        | [] => k rest pos cp
        | '\n' :: rs => if fl.ml || rs.isEmpty then k rest pos cp else none
        | _ => none
    | .seq a b => mAt fl t f a rest pos cp (fun r2 p2 c2 => mAt fl t f b r2 p2 c2 k)
    | .alt a b =>
        match mAt fl t f a rest pos cp k with
        | some res => some res
        | none => mAt fl t f b rest pos cp k
    | .star lz a =>
        let step := fun r2 p2 c2 =>
          if p2 == pos then k r2 p2 c2
          else mAt fl t f (.star lz a) r2 p2 c2 k
        if lz then
          match k rest pos cp with
          | some res => some res
          | none => mAt fl t f a rest pos cp step
        else
          match mAt fl t f a rest pos cp step with
          | some res => some res
          | none => k rest pos cp
    | .opt lz a =>
        if lz then
          match k rest pos cp with
          | some res => some res
          | none => mAt fl t f a rest pos cp k
        else
          match mAt fl t f a rest pos cp k with
          | some res => some res
          | none => k rest pos cp
    | .group i a => mAt fl t f a rest pos cp (fun r2 p2 c2 => k r2 p2 ((i, pos, p2) :: c2))
    | .look a =>
        match mAt fl t f a rest pos cp (fun _ _ c2 => some (0, c2)) with
        | some (_, c2) => k rest pos c2
        | none => none

def reSize : RE → Nat
  | .eps | .lit _ | .cls _ _ | .dot | .bol | .eol => 1
  | .seq a b | .alt a b => reSize a + reSize b + 1
  | .star _ a | .opt _ a | .group _ a | .look a => reSize a + 1

def stdFuel (r : RE) (n : Nat) : Nat := (reSize r + 2) * (n + 2) + 4

/-- Leftmost search: try a match at each position in turn (Python `re.search`). -/
def sFrom (fl : RFlags) (t : Str) (r : RE) (fuelM : Nat) :
    Str → Nat → Option (Nat × Nat × Caps)
  | [], pos =>
      match mAt fl t fuelM r [] pos [] (fun _ p2 c2 => some (p2, c2)) with
      | some (e, cp) => some (pos, e, cp)
      | none => none
  | c :: rs, pos =>
      match mAt fl t fuelM r (c :: rs) pos [] (fun _ p2 c2 => some (p2, c2)) with
      | some (e, cp) => some (pos, e, cp)
      | none => sFrom fl t r fuelM rs (pos + 1)

/-- Python `re.search(pat, t, flags)`: returns (start, end, captures). -/
def pySearch (fl : RFlags) (pat : Str) (t : Str) : Option (Nat × Nat × Caps) :=
  match topParse pat with
  | none => none
  | some (r, inlineI) =>
      let fl2 : RFlags := if inlineI then ⟨true, fl.ml, fl.ds⟩ else fl
      sFrom fl2 t r (stdFuel r t.length) t 0

/-- Python `re.match(pat, t, flags)` (anchored at position 0). -/
def pyMatch0 (fl : RFlags) (pat : Str) (t : Str) : Option (Nat × Caps) :=
  match topParse pat with
  | none => none
  | some (r, inlineI) =>
      let fl2 : RFlags := if inlineI then ⟨true, fl.ml, fl.ds⟩ else fl
      mAt fl2 t (stdFuel r t.length) r t 0 [] (fun _ p2 c2 => some (p2, c2))

/-- One global-substitution pass: repeatedly search, emit the prefix, the
replacement, and continue after the match (Python `re.sub`). -/
def subLoop (fl : RFlags) (t : Str) (r : RE) (fuelM : Nat)
    (repl : Caps → Nat → Nat → Str) : Nat → Str → Nat → Str
  | 0, rest, _ => rest
  | f + 1, rest, pos =>
      match sFrom fl t r fuelM rest pos with
      | none => rest
      | some (i, e, cp) =>
          let pre := rest.take (i - pos)
          if i < e then
            pre ++ repl cp i e ++ subLoop fl t r fuelM repl f (rest.drop (e - pos)) e
          else
            match rest.drop (i - pos) with
            | [] => pre ++ repl cp i e
            | c :: rs2 => pre ++ repl cp i e ++ c :: subLoop fl t r fuelM repl f rs2 (i + 1)

/-- Python `re.sub` with a function replacement (the function receives the
matched text). -/
def pySubF (fl : RFlags) (pat : Str) (repl : Str → Str) (t : Str) : Str :=
  match topParse pat with
  | none => t
  | some (r, inlineI) =>
      let fl2 : RFlags := if inlineI then ⟨true, fl.ml, fl.ds⟩ else fl
      subLoop fl2 t r (stdFuel r t.length)
        (fun _ i e => repl ((t.drop i).take (e - i))) (t.length + 2) t 0

/-- Expand a replacement template: `\1`..`\9` are group references, `\n` a
newline, other escapes literal. -/
def expandTmpl (orig : Str) (cp : Caps) : Str → Str
  | [] => []
  | '\\' :: c :: rest =>
      if isPyDigit c then
        (match cp.find? (fun g => g.1 == c.toNat - 48) with
         | some (_, a, b) => (orig.drop a).take (b - a)
         | none => []) ++ expandTmpl orig cp rest
      else if c = 'n' then '\n' :: expandTmpl orig cp rest
      else c :: expandTmpl orig cp rest
  | c :: rest => c :: expandTmpl orig cp rest

/-- Python `re.sub` with a string (template) replacement. -/
def pySubT (fl : RFlags) (pat tmpl t : Str) : Str :=
  match topParse pat with
  | none => t
  | some (r, inlineI) =>
      let fl2 : RFlags := if inlineI then ⟨true, fl.ml, fl.ds⟩ else fl
      subLoop fl2 t r (stdFuel r t.length)
        (fun cp _ _ => expandTmpl t cp tmpl) (t.length + 2) t 0

/- Python string helpers. -/

def lowerStr (t : Str) : Str := t.map toLowerChar

/-- Python `str.strip()`. -/
def pyStrip (t : Str) : Str :=
  ((t.dropWhile isPySpace).reverse.dropWhile isPySpace).reverse

/-- Python `str.replace(pat, rep)` (all occurrences, left to right). -/
def replaceAll : Nat → Str → Str → Str → Str
  | 0, t, _, _ => t
  | _ + 1, t, [], _ => t
  | f + 1, t, p :: ps, rep =>
      match t with
      | [] => []
      | c :: rest =>
          if (p :: ps).isPrefixOf t then rep ++ replaceAll f (t.drop (p :: ps).length) (p :: ps) rep
          else c :: replaceAll f rest (p :: ps) rep

def pyReplace (t pat rep : Str) : Str := replaceAll (t.length + 1) t pat rep

/-- Python `needle in hay` on strings. -/
def containsSub (hay nd : Str) : Bool := hay.tails.any (fun s => nd.isPrefixOf s)

def splitNl (t : Str) : List Str := t.splitOn '\n'

def joinNl (ls : List Str) : Str := List.intercalate ['\n'] ls

def firstSome {α β : Type} (f : α → Option β) : List α → Option β
  | [] => none
  | a :: rest =>
      match f a with
      | some b => some b
      | none => firstSome f rest

/-- Python `text[a:b]` (clamping slice). -/
def pySlice (t : Str) (a b : Nat) : Str := (t.drop a).take (b - a)

/- ------------------------------------------------------------------ -/
/- TextCleaner (src/backend/src/document_processing/text_cleaner.py;
   the same module is imported as `.text_cleaner` by the extractor). -/

/-- Source `company_noise_patterns` (constructor, lines 16-56), in source order. -/
def companyNoisePatterns : List Str :=
  [ str ("Trụ sở chính.*?(?=\\n[A-ZÀÁẢÃẠ]|\\n\\n|$)"),
    str ("Chi nhánh.*?(?=\\n[A-ZÀÁẢÃẠ]|\\n\\n|$)"),
    str ("Head Office.*?(?=\\n[A-ZÀÁẢÃẠ]|\\n\\n|$)"),
    str ("Hanoi Office.*?(?=\\n[A-ZÀÁẢÃẠ]|\\n\\n|$)"),
    str ("Lầu \\d+.*?(?=\\n[A-ZÀÁẢÃẠ]|\\n\\n|$)"),
    str ("Tầng \\d+.*?(?=\\n[A-ZÀÁẢÃẠ]|\\n\\n|$)"),
    str ("\\d+-\\d+-\\d+\\s+.*?Quận.*?(?=\\n|$)"),
    str ("Quận \\d+.*?Tp\\.?\\s*Hồ Chí Minh.*?(?=\\n|$)"),
    str ("P\\.\\s*.*?Q\\.\\s*.*?Hà Nội.*?(?=\\n|$)"),
    str ("Dist\\.\\s*\\d+.*?HCM.*?(?=\\n|$)"),
    str ("Dong Da Dist.*?Hanoi.*?(?=\\n|$)"),
    str ("Website:.*?(?=\\n|$)"),
    str ("Email:.*?(?=\\n|$)"),
    str ("Hotline:.*?(?=\\n|$)"),
    str ("Tel:.*?(?=\\n|$)"),
    str ("Phone:.*?(?=\\n|$)"),
    str ("\\|\\s*Hotline:.*?(?=\\n|$)"),
    str ("\\+84.*?\\d{3}.*?\\d{3}.*?(?=\\n|$)"),
    str ("www\\.Robusta\\.vn.*?(?=\\n|$)"),
    str ("Learn@Robusta\\.vn.*?(?=\\n|$)"),
    str ("Page \\d+ of \\d+.*?(?=\\n|$)"),
    str ("www\\.Robusta\\.vn\\s+Page.*?(?=\\n|$)"),
    str ("Trang \\d+.*?(?=\\n|$)"),
    str ("©.*?(?=\\n|$)"),
    str ("Trụ sở chính.*?www\\.Robusta\\.vn"),
    str ("Chi nhánh.*?Learn@Robusta\\.vn"),
    str ("ROBUSTA.*?(?=\\n|$)"),
    str ("Robusta.*?Technology.*?(?=\\n|$)") ]

/-- The fixed replacement table of `fix_vietnamese_encoding` (lines 64-84),
in source order.  The source dict literal lists the key `gi ải quy ết`
twice with the same value; a Python dict keeps a single entry. -/
def encodingFixes : List (Str × Str) :=
  [ (str ("h ọc"), str ("học")), (str ("gi ảng"), str ("giảng")), (str ("vi ện"), str ("viện")),
    (str ("cơ b ản"), str ("cơ bản")), (str ("đào t ạo"), str ("đào tạo")),
    (str ("hệ th ống"), str ("hệ thống")),
    (str ("công ngh ệ"), str ("công nghệ")), (str ("ki ến th ức"), str ("kiến thức")),
    (str ("ứng d ụng"), str ("ứng dụng")),
    (str ("quản tr ị"), str ("quản trị")), (str ("th ực hiện"), str ("thực hiện")),
    (str ("phát tri ển"), str ("phát triển")),
    (str ("ngư ời"), str ("người")), (str ("d ự án"), str ("dự án")),
    (str ("đ ể"), str ("để")), (str ("c ần"), str ("cần")),
    (str ("gi ờ"), str ("giờ")), (str ("đ ề"), str ("đề")),
    (str ("c ấp"), str ("cấp")), (str ("c ách"), str ("cách")),
    (str ("c ó th ể"), str ("có thể")), (str ("c ung c ấp"), str ("cung cấp")),
    (str ("ph ương pháp"), str ("phương pháp")),
    (str ("c ông c ụ"), str ("công cụ")), (str ("ph ân tích"), str ("phân tích")),
    (str ("d ữ liệu"), str ("dữ liệu")),
    (str ("b ằng c ách"), str ("bằng cách")), (str ("gi ải quy ết"), str ("giải quyết")),
    (str ("yêu c ầu"), str ("yêu cầu")),
    (str ("liên quan đ ến"), str ("liên quan đến")), (str ("ki nh doanh"), str ("kinh doanh")),
    (str ("nh ững"), str ("những")), (str ("căn b ản"), str ("căn bản")),
    (str ("g ồm"), str ("gồm")),
    (str ("đư ợc"), str ("được")), (str ("c ách th ức"), str ("cách thức")),
    (str ("áp d ụng"), str ("áp dụng")),
    (str ("th ực t ế"), str ("thực tế")), (str ("môi trư ờng"), str ("môi trường")),
    (str ("k ỹ thu ật"), str ("kỹ thuật")),
    (str ("cu ối"), str ("cuối")), (str ("v ới"), str ("với")),
    (str ("ch ứng ch ỉ"), str ("chứng chỉ")), (str ("c ài đ ặt"), str ("cài đặt")),
    (str ("tri ển khai"), str ("triển khai")),
    (str ("c ấu hình"), str ("cấu hình")), (str ("ph ục v ụ"), str ("phục vụ")),
    (str ("ph át tri ển"), str ("phát triển")) ]

/-- The generic spaced-diacritic merge rules of `fix_vietnamese_encoding`
(lines 91-97). -/
def encodingGeneric : List (Str × Str) :=
  [ (str ("([a-zA-ZÀ-ỹ])\\s+([ọệấởảắằẳẵặ])"), str ("\\1\\2")),
    (str ("([a-zA-ZÀ-ỹ])\\s+([ụũúùűùử])"), str ("\\1\\2")),
    (str ("([a-zA-ZÀ-ỹ])\\s+([ịĩíìỉ])"), str ("\\1\\2")),
    (str ("([a-zA-ZÀ-ỹ])\\s+([ỗốồổộ])"), str ("\\1\\2")),
    (str ("([a-zA-ZÀ-ỹ])\\s+([ỹýỳỷỵ])"), str ("\\1\\2")) ]

/-- Source `fix_vietnamese_encoding` (lines 58-102). -/
def fixVietnameseEncoding (t : Str) : Str :=
  if t.isEmpty then [] else
  let t1 := encodingFixes.foldl (fun acc pr => pyReplace acc pr.1 pr.2) t
  encodingGeneric.foldl (fun acc pr => pySubT flNone pr.1 pr.2 acc) t1

/-- Source `course_keywords` inside `replace_if_not_course` (lines 141-145). -/
def courseKeywords : List Str :=
  [ str ("khóa học"), str ("course"), str ("mục tiêu"), str ("objectives"), str ("giới thiệu"),
    str ("nội dung"), str ("content"), str ("học viên"), str ("students"), str ("yêu cầu"),
    str ("VMware"), str ("NSX"), str ("BigData"), str ("Cloud"), str ("thời lượng"),
    str ("duration") ]

/-- Source `replace_if_not_course` (lines 139-153): keep the matched text when it
contains a course keyword (case-insensitively), otherwise delete it. -/
def replaceIfNotCourse (m : Str) : Str :=
  if courseKeywords.any (fun kw => containsSub (lowerStr m) (lowerStr kw)) then m else []

/-- Source `company_blocks` (lines 126-131). -/
def companyBlocks : List Str :=
  [ str ("Ho Chi Minh.*?City Head Office.*?www\\.Robusta\\.vn"),
    str ("Trụ sở chính.*?www\\.Robusta\\.vn"),
    str ("Chi nhánh.*?Learn@Robusta\\.vn"),
    str ("Hanoi\\s+Office.*?www\\.Robusta\\.vn") ]

/-- Source `course_structure_keywords` of the line pass (lines 167-172). -/
def courseStructureKeywords : List Str :=
  [ str ("I\\.\\s*Giới thiệu"), str ("II\\.\\s*Thời lượng"), str ("III\\.\\s*Mục tiêu"),
    str ("IV\\.\\s*Đối tượng"), str ("V\\.\\s*Yêu cầu"), str ("VI\\.\\s*Nội dung"),
    str ("Khóa học"), str ("Course"), str ("Module\\s*\\d+"), str ("Chương\\s*\\d+"),
    str ("VMware"), str ("NSX"), str ("BigData"), str ("Cloud"), str ("OpenStack") ]

/-- Source `isolated_patterns` of the line pass (lines 182-190). -/
def isolatedPatterns : List Str :=
  [ str ("^.*?(?:Head Office|Chi nhánh|Trụ sở).*?$"),
    str ("^.*?(?:\\+84|\\(\\+84\\)).*?$"),
    str ("^.*?(?:Tel:|Phone:|Hotline:).*?$"),
    str ("^.*?(?:Website:|Email:).*?$"),
    str ("^.*?(?:www\\.Robusta|Learn@Robusta).*?$"),
    str ("^.*?(?:97-99-101|Lane 167|Tây Sơn).*?$"),
    str ("^.*?(?:Dist\\.|Quận|HCM City|Hà Nội).*?$") ]

/-- Source `remove_company_noise` (lines 104-201).  The FIRST pass of the source
collects `preserved_content` from `course_content_patterns` via
`re.findall` but never uses the result; that effect-free computation is
not modelled. -/
def removeCompanyNoise (t : Str) : Str :=
  let c1 := companyBlocks.foldl (fun acc p => pySubT flID p [] acc) t
  let c2 := companyNoisePatterns.foldl (fun acc p => pySubF flIM p replaceIfNotCourse acc) c1
  let keep := fun (line : Str) =>
    let l := pyStrip line
    if l.isEmpty then none
    else if courseStructureKeywords.any (fun p => (pySearch flI p l).isSome) then some l
    else if isolatedPatterns.any (fun p => (pyMatch0 flI p l).isSome) then none
    else some l
  joinNl ((splitNl c2).filterMap keep)

/-- Source `normalize_whitespace` (lines 203-211). -/
def normalizeWhitespace (t : Str) : Str :=
  let t1 := pySubT flNone (str ("\\s+")) (str (" ")) t
  let t2 := pySubT flNone (str ("\\n\\s*\\n\\s*\\n+")) (str ("\\n\\n")) t1
  pySubT flNone (str ("\\n\\s+")) (str ("\\n")) t2

/-- Source `standardize_formatting` (lines 213-219). -/
def standardizeFormatting (t : Str) : Str :=
  let t1 := pySubT flNone (str ("•\\s*")) (str ("• ")) t
  pySubT flNone (str ("(\\d+)\\.\\s*")) (str ("\\1. ")) t1

/-- Source `remove_incomplete_lines` (lines 221-241). -/
def removeIncompleteLines (t : Str) : Str :=
  let keep := fun (line : Str) =>
    let l := pyStrip line
    if l.isEmpty then none
    else if l.length < 10 then none
    else if 20 < l.length ∧ (pySearch flNone (str ("[\\.!?\\)\\:]$")) l) = none ∧
            (str ("...")).isSuffixOf l = true then none
    else some l
  joinNl ((splitNl t).filterMap keep)

/-- Source `clean_text` (lines 243-266): the full normalisation pipeline. -/
def cleanText (t : Str) : Str :=
  if t.isEmpty then [] else
  let t1 := fixVietnameseEncoding t
  let t2 := removeCompanyNoise t1
  let t3 := pySubT flNone (str ("[^\\w\\sÀ-ỹ\\n\\.\\,\\!\\?\\-\\•\\:\\(\\)]")) (str (" ")) t2
  let t4 := normalizeWhitespace t3
  let t5 := standardizeFormatting t4
  let t6 := removeIncompleteLines t5
  pyStrip t6

/- ------------------------------------------------------------------ -/
/- CourseInfoExtractor (src/src/document_processing/course_extractor.py). -/

structure SectionCfg where
  title : Str
  patterns : List Str
  keywords : List Str
  stops : List Str

/-- Source `section_configs` (constructor, lines 20-73), in source (dict insertion)
order. -/
def sectionConfigs : List (String × SectionCfg) :=
  [ ("overview",
     ⟨str ("Giới thiệu/Tổng quan khóa học"),
      [str ("i+\\.\\s*tổng quan"), str ("i+\\.\\s*giới thiệu"),
       str ("tổng quan\\s*$"), str ("giới thiệu về khóa học")],
      [str ("tổng quan"), str ("giới thiệu khóa học"), str ("mô tả khóa học")],
      [str ("ii+\\.\\s*thời lượng"), str ("thời lượng\\s*\\d+")]⟩),
    ("duration",
     ⟨str ("Thời lượng & Hình thức đào tạo"),
      [str ("ii+\\.\\s*thời lượng"), str ("thời lượng\\s*\\d+"), str ("thời lượng.*giờ")],
      [str ("thời lượng"), str ("hình thức đào tạo"), str ("thời gian học")],
      [str ("iii+\\.\\s*mục tiêu"), str ("mục tiêu khóa học")]⟩),
    ("objectives",
     ⟨str ("Mục tiêu khóa học"),
      [str ("iii+\\.\\s*mục tiêu khóa học"), str ("mục tiêu khóa học"), str ("mục tiêu\\s*$")],
      [str ("mục tiêu khóa học"), str ("mục tiêu"), str ("sau khóa học")],
      [str ("iv+\\.\\s*đối tượng"), str ("đối tượng tham gia")]⟩),
    ("audience",
     ⟨str ("Đối tượng tham gia"),
      [str ("iv+\\.\\s*đối tượng tham gia"), str ("đối tượng tham gia"), str ("đối tượng\\s*$")],
      [str ("đối tượng tham gia"), str ("đối tượng"), str ("học viên")],
      [str ("v+\\.\\s*nội dung"), str ("nội dung khóa học"), str ("chương trình")]⟩),
    ("content",
     ⟨str ("Nội dung khóa học"),
      [str ("v+\\.\\s*nội dung khóa học"), str ("nội dung khóa học"),
       str ("chương trình học"), str ("module\\s*\\d+")],
      [str ("nội dung khóa học"), str ("chương trình"), str ("module"), str ("nội dung đào tạo")],
      []⟩) ]

def getConfig (name : String) : Option SectionCfg :=
  (sectionConfigs.find? (fun p => p.1 == name)).map Prod.snd

/-- Python `re.escape` (3.7+: prefixes the listed special characters with a
backslash). -/
def reSpecials : Str := str ("()[]\x7b\x7d?*+-|^$\\.&~# \t\n\x0d\x0b\x0c")

def reEscape (s : Str) : Str :=
  s.foldr (fun c acc => (if reSpecials.contains c then ['\\', c] else [c]) ++ acc) []

/-- The keyword fallback pattern of `find_section_boundaries` (line 95). -/
def kwPattern (kw : Str) : Str := str ("(?:^|\\n)\\s*[•\\-\\*]?\\s*") ++ reEscape kw

/-- Source `generic_stops` (lines 118-121). -/
def genericStops : List Str :=
  [ str ("\\n\\s*[ivx]+\\.\\s*[a-zA-ZÀ-ỹ]"),
    str ("\\n\\s*\\d+\\.\\s*[A-ZÀÁẢÃẠ]") ]

/-- The end-tightening loops of `find_section_boundaries` (lines 105-126):
for each pattern, search the text starting `off` characters past the
section start and, when found, lower the current end to the match offset. -/
def tightenStops (flx : RFlags) (t : Str) (s off : Nat) (pats : List Str) (init : Nat) : Nat :=
  pats.foldl (fun e sp =>
    match pySearch flx sp (t.drop (s + off)) with
    | some x => min e (s + off + x.1)
    | none => e) init

/-- Source `find_section_boundaries` (lines 75-130) for a given configuration:
start from the first matching pattern (IGNORECASE|MULTILINE on the lowered
text), else the first matching bulleted keyword (IGNORECASE); the end starts
at the text length and is tightened by stop patterns searched 50 characters
past the start and by generic stops searched 100 characters past the start. -/
def findBoundsCfg (cfg : SectionCfg) (t : Str) : Option (Nat × Nat) :=
  let tl := lowerStr t
  let startPat := firstSome (fun p => (pySearch flIM p tl).map (fun x => x.1)) cfg.patterns
  let start? :=
    match startPat with
    | some s => some s
    | none => firstSome (fun kw => (pySearch flI (kwPattern kw) tl).map (fun x => x.1)) cfg.keywords
  match start? with
  | none => none
  | some s =>
      let e1 := tightenStops flIM t s 50 cfg.stops t.length
      let e2 := tightenStops flI t s 100 genericStops e1
      some (s, e2)

/-- Source `find_section_boundaries` by section name.  The source indexes
`self.section_configs[section_name]` and is only called with the five
defined names (an unknown name would raise KeyError). -/
def findSectionBoundaries (t : Str) (name : String) : Option (Nat × Nat) :=
  match getConfig name with
  | none => none
  | some cfg => findBoundsCfg cfg t

/-- Source `header_patterns` of `extract_section_content` (lines 147-151). -/
def headerStripPatterns (title : Str) : List Str :=
  [ reEscape title ++ str (":?"), str ("^[ivx]+\\.\\s*"), str ("^\\d+\\.\\s*") ]

/-- Source `post_process_section` (lines 161-181). -/
def postProcessSection (content : Str) (sectionType : String) : Str :=
  if content.isEmpty then [] else
  let c :=
    if sectionType == "duration" then
      pySubT flI (str ("(\\d+)\\s*(giờ|ngày|tuần|tháng)")) (str ("\\1 \\2")) content
    else if sectionType == "content" then
      let c1 := pySubT flI (str ("Module\\s*(\\d+)")) (str ("\\nModule \\1")) content
      pySubT flI (str ("Chương\\s*(\\d+)")) (str ("\\nChương \\1")) c1
    else if sectionType == "objectives" then
      pySubT flNone (str ("(?:^|\\n)([^•\\n])")) (str ("\\n• \\1")) content
    else content
  pyStrip (pySubT flNone (str ("\\n\\s*\\n\\s*\\n+")) (str ("\\n\\n")) c)

/-- Source `extract_section_content` (lines 132-159). -/
def extractSectionContent (t : Str) (name : String) : Str :=
  match getConfig name with
  | none => []
  | some cfg =>
      match findBoundsCfg cfg t with
      | none => []
      | some (s, e) =>
          let sectionText := pySlice t s e
          let cleaned := cleanText sectionText
          let cleaned2 := (headerStripPatterns cfg.title).foldl
            (fun acc p => pySubT flIM p [] acc) cleaned
          pyStrip (postProcessSection cleaned2 name)

/-- Source `intro_patterns` of `_extract_precise_section1` (lines 209-215). -/
def introPatterns1 : List Str :=
  [ str ("I\\.\\s*(?:Giới thiệu|Tổng quan).*?(?=II\\.|III\\.|Thời lượng|$)"),
    str ("(?:Giới thiệu|Tổng quan)(?:\\s+về)?\\s+(?:khóa học|khoá học).*?(?=II\\.|Thời lượng|Mục tiêu|$)"),
    str ("OpenStack là.*?(?=II\\.|Thời lượng|$)"),
    str ("Khóa học.*?cung cấp.*?(?=II\\.|Thời lượng|Mục tiêu|$)"),
    str ("Trong bối cảnh.*?(?=II\\.|Thời lượng|Mục tiêu|$)") ]

/-- Source `duration_patterns` of `_extract_precise_section1` (lines 231-234). -/
def durationPatterns1 : List Str :=
  [ str ("II\\.\\s*Thời lượng.*?(?=III\\.|IV\\.|Hình thức|Mục tiêu|$)"),
    str ("Thời lượng(?:\\s+khóa học)?:.*?(?:giờ|ngày|tuần).*?(?=III\\.|IV\\.|Hình thức|Mục tiêu|Đối tượng|$)") ]

/-- Source `meaningful_patterns` of `_extract_precise_section1` (lines 259-263). -/
def meaningfulPatterns1 : List Str :=
  [ str ("(?:khóa học|khoá học).*?(?:cung cấp|giúp|trang bị).*?(?=Mục tiêu|Đối tượng|\\d+\\.|$)"),
    str ("[A-Z][a-z]+ là.*?(?=Mục tiêu|Đối tượng|\\d+\\.|$)"),
    str ("Trong bối cảnh.*?(?=Mục tiêu|Đối tượng|\\d+\\.|$)") ]

/-- Source `_extract_precise_section1` (lines 204-271): introduction plus duration,
with the training-format part removed from the duration text, a
"meaningful text" retry when the result is shorter than 50 characters, and
a fixed placeholder as last resort.  `raw` mirrors the unused
`raw_sections` parameter of the source. -/
def extractPreciseSection1 (t : Str) (raw : List (String × Str)) : Str :=
  let _ := raw
  let introText :=
    match firstSome (fun p => pySearch flID p t) introPatterns1 with
    | some (i, e, _) =>
        let m := pyStrip (pySlice t i e)
        let m1 := pySubT flI (str ("^I\\.\\s*(?:Giới thiệu|Tổng quan).*?:\\s*")) [] m
        pySubT flI (str ("^(?:Giới thiệu|Tổng quan).*?:\\s*")) [] m1
    | none => []
  let parts1 : List Str :=
    if introText.isEmpty then [] else [str ("Tổng quan khóa học:\n") ++ introText]
  let durationText :=
    match firstSome (fun p => pySearch flID p t) durationPatterns1 with
    | some (i, e, _) =>
        let m := pyStrip (pySlice t i e)
        let m1 := pySubT flI (str ("^II\\.\\s*Thời lượng.*?:\\s*")) [] m
        let m2 := pySubT flI (str ("^Thời lượng.*?:\\s*")) [] m1
        let m3 := pySubT flID (str ("III\\.\\s*Hình thức.*")) [] m2
        pySubT flID (str ("Hình thức đào tạo.*")) [] m3
    | none => []
  let parts := parts1 ++
    (if durationText.isEmpty then [] else [str ("Thời lượng:\n") ++ durationText])
  let result := if parts.isEmpty then [] else List.intercalate (str ("\n\n")) parts
  let result :=
    if result.isEmpty ∨ (pyStrip result).length < 50 then
      match firstSome (fun p => pySearch flID p t) meaningfulPatterns1 with
      | some (i, e, _) => str ("Tổng quan khóa học:\n") ++ pyStrip (pySlice t i e)
      | none => result
    else result
  if result.isEmpty then str ("Thông tin giới thiệu và thời lượng khóa học.") else result

/-- Source `objectives_patterns` of `_extract_precise_section2` (lines 278-284). -/
def objectivesPatterns2 : List Str :=
  [ str ("IV\\.\\s*Mục tiêu.*?(?=V\\.|VI\\.|Đối tượng|$)"),
    str ("Mục tiêu khóa học.*?(?=V\\.|Đối tượng|Điều kiện|$)"),
    str ("Kết thúc khóa học.*?(?=V\\.|Đối tượng|$)"),
    str (".*?học viên.*?(?:nắm|hiểu|có thể|sẽ).*?(?=Đối tượng|Điều kiện|Nội dung|$)") ]

/-- Source `audience_patterns` of `_extract_precise_section2` (lines 299-305). -/
def audiencePatterns2 : List Str :=
  [ str ("III\\.\\s*Đối tượng.*?(?=IV\\.|V\\.|Yêu cầu|Điều kiện|Nội dung|$)"),
    str ("V\\.\\s*Đối tượng.*?(?=VI\\.|VII\\.|Điều kiện|Nội dung|$)"),
    str ("Đối tượng(?:\\s+tham gia|\\s+học)?.*?(?=IV\\.|V\\.|VI\\.|Yêu cầu|Điều kiện|Nội dung|$)"),
    str ("Đối tượng học\\s*:.*?(?=IV\\.|V\\.|Yêu cầu|Điều kiện|Nội dung|$)") ]

/-- Source `prereq_patterns` of `_extract_precise_section2` (lines 320-324). -/
def prereqPatterns2 : List Str :=
  [ str ("IV\\.\\s*(?:Yêu cầu|Điều kiện).*?(?=V\\.|VI\\.|Nội dung|$)"),
    str ("VI\\.\\s*Điều kiện.*?(?=VII\\.|VIII\\.|Nội dung|$)"),
    str ("(?:Điều kiện tiên quyết|Yêu cầu trước khóa học).*?(?=V\\.|VI\\.|VII\\.|Nội dung|$)") ]

/-- Source `fallback_patterns` of `_extract_precise_section2` (lines 343-346). -/
def fallbackPatterns2 : List Str :=
  [ str (".*?(?:Quản trị|Admin|Developer|Kỹ sư|Chuyên viên).*?(?=Nội dung|\\d+\\.|$)"),
    str (".*?(?:kiến thức|kinh nghiệm|yêu cầu).*?(?:Linux|cơ bản|nền tảng).*?(?=Nội dung|\\d+\\.|$)") ]

/-- Source `_extract_precise_section2` (lines 273-354). -/
def extractPreciseSection2 (t : Str) (raw : List (String × Str)) : Str :=
  let _ := raw
  let objectivesText :=
    match firstSome (fun p => pySearch flID p t) objectivesPatterns2 with
    | some (i, e, _) =>
        let m := pyStrip (pySlice t i e)
        let m1 := pySubT flI (str ("^IV\\.\\s*Mục tiêu.*?:\\s*")) [] m
        pySubT flI (str ("^Mục tiêu.*?:\\s*")) [] m1
    | none => []
  let p1 : List Str :=
    if objectivesText.isEmpty then [] else [str ("Mục tiêu khóa học:\n") ++ objectivesText]
  let audienceText :=
    match firstSome (fun p => pySearch flID p t) audiencePatterns2 with
    | some (i, e, _) =>
        let m := pyStrip (pySlice t i e)
        let m1 := pySubT flI (str ("^(?:III\\.|V\\.)\\s*Đối tượng.*?:\\s*")) [] m
        pySubT flI (str ("^Đối tượng.*?:\\s*")) [] m1
    | none => []
  let p2 : List Str :=
    if audienceText.isEmpty then [] else [str ("Đối tượng tham gia:\n") ++ audienceText]
  let prereqText :=
    match firstSome (fun p => pySearch flID p t) prereqPatterns2 with
    | some (i, e, _) =>
        let m := pyStrip (pySlice t i e)
        let m1 := pySubT flI (str ("^(?:IV\\.|VI\\.)\\s*(?:Điều kiện|Yêu cầu).*?:\\s*")) [] m
        pySubT flI (str ("^(?:Điều kiện|Yêu cầu).*?:\\s*")) [] m1
    | none => []
  let p3 : List Str :=
    if prereqText.isEmpty then [] else [str ("Điều kiện tiên quyết:\n") ++ prereqText]
  let parts := p1 ++ p2 ++ p3
  let result := if parts.isEmpty then [] else List.intercalate (str ("\n\n")) parts
  let result :=
    if result.isEmpty ∨ (pyStrip result).length < 50 then
      match firstSome (fun p => pySearch flID p t) fallbackPatterns2 with
      | some (i, e, _) => str ("Đối tượng và yêu cầu:\n") ++ pyStrip (pySlice t i e)
      | none => result
    else result
  if result.isEmpty then str ("Thông tin mục tiêu và đối tượng khóa học.") else result

/-- Source `content_patterns` of `_extract_precise_section3` (lines 360-368). -/
def contentPatterns3 : List Str :=
  [ str ("V\\.\\s*Nội dung.*"),
    str ("VI\\.\\s*Nội dung.*"),
    str ("VII\\.\\s*Nội dung.*"),
    str ("Nội dung khóa học.*"),
    str ("\\d+\\.\\s*(?:Introduction|Tổng quan|Overview).*"),
    str ("Module\\s*1.*"),
    str ("Chương\\s*1.*") ]

/-- Source `module_patterns` of `_extract_precise_section3` (lines 383-389). -/
def modulePatterns3 : List Str :=
  [ str ("1\\.\\s*.*?(?:\\n2\\.|$)"),
    str ("Module.*?1.*"),
    str ("Introduction to.*"),
    str ("Hadoop.*Installation.*"),
    str ("HDFS.*Components.*") ]

/-- Source `_extract_precise_section3` (lines 356-403): curriculum content, with a
1000-character window from the first module-style anchor as fallback. -/
def extractPreciseSection3 (t : Str) (raw : List (String × Str)) : Str :=
  let _ := raw
  let contentText :=
    match firstSome (fun p => pySearch flID p t) contentPatterns3 with
    | some (i, e, _) =>
        let m := pyStrip (pySlice t i e)
        let m1 := pySubT flI (str ("^(?:V\\.|VI\\.|VII\\.)\\s*Nội dung.*?:\\s*")) [] m
        pySubT flI (str ("^Nội dung khóa học\\s*:\\s*")) [] m1
    | none => []
  let contentText :=
    if contentText.isEmpty ∨ (pyStrip contentText).length < 100 then
      match firstSome (fun p => pySearch flID p t) modulePatterns3 with
      | some (i, _, _) => (t.drop i).take 1000
      | none => contentText
    else contentText
  if contentText.isEmpty then
    str ("Nội dung khóa học: Thông tin chi tiết về chương trình học.")
  else str ("Nội dung khóa học:\n") ++ contentText

/-- Source `_extract_fallback_section1` (lines 405-434).  Defined in the source but
never invoked by `extract_course_info`. -/
def extractFallbackSection1 (t : Str) : Str :=
  let introPart :=
    match firstSome (fun p => pySearch flD p t)
        [ str ("(?i)(?:tổng quan|giới thiệu|mô tả).*?(?=(?:thời lượng|mục tiêu|\\n\\n))"),
          str ("(?i)trong bối cảnh.*?(?=(?:thời lượng|mục tiêu|\\n\\n))") ] with
    | some (i, e, _) => [str ("Tổng quan: ") ++ pyStrip (pySlice t i e)]
    | none => []
  let durPart :=
    match firstSome (fun p => pySearch flD p t)
        [ str ("(?i)thời lượng.*?(?:giờ|ngày|tuần).*?(?=(?:mục tiêu|\\n\\n))"),
          str ("(?i)\\d+\\s*(?:giờ|ngày|tuần)") ] with
    | some (i, e, _) => [str ("Thời lượng: ") ++ pyStrip (pySlice t i e)]
    | none => []
  let parts := introPart ++ durPart
  if parts.isEmpty then str ("Thông tin giới thiệu và thời lượng khóa học.")
  else List.intercalate (str ("\n\n")) parts

/-- Source `_create_fixed_sections` (lines 183-202): exactly the three fixed output
slots, computed from the re-cleaned full text. -/
def createFixedSections (raw : List (String × Str)) (fullText : Str) : List (String × Str) :=
  let cft := cleanText fullText
  [ ("section1_intro_duration", extractPreciseSection1 cft raw),
    ("section2_objectives_audience", extractPreciseSection2 cft raw),
    ("section3_content", extractPreciseSection3 cft raw) ]

/-- The five raw section names, in `section_configs` insertion order. -/
def sectionNames : List String :=
  ["overview", "duration", "objectives", "audience", "content"]

/-- Source `extract_course_info` (lines 481-499).  The guard
`if not text or len(text.strip()) < 100: return {}` is modelled by the
single stripped-length test (the strip of an empty text has length 0). -/
def extractCourseInfo (t : Str) : List (String × Str) :=
  if (pyStrip t).length < 100 then [] else
  let cleaned := cleanText t
  let raw := sectionNames.foldl (fun acc name =>
      let c := extractSectionContent cleaned name
      if ¬ c.isEmpty ∧ 30 < (pyStrip c).length then acc ++ [(name, c)] else acc) []
  createFixedSections raw cleaned

/- ------------------------------------------------------------------ -/
/- PDFLoader document building (src/src/document_processing/pdf_loader.py).
   PDF I/O itself is external; the model takes the page-concatenated full
   text and the derived source / course names as inputs. -/

structure CourseDoc where
  pageContent : Str
  metadata : List (String × Str)
deriving DecidableEq, Repr

/-- Source `section_configs` of `load_pdf_file` (lines 56-69): slot key, fixed
title, section type, in source order. -/
def docSectionConfigs : List (String × String × String) :=
  [ ("section1_intro_duration", "Giới thiệu và Thời lượng", "intro_duration"),
    ("section2_objectives_audience", "Mục tiêu và Đối tượng", "objectives_audience"),
    ("section3_content", "Nội dung Khóa học", "course_content") ]

/-- Python `dict.get(key, default)` on the course-info map. -/
def lookupD (l : List (String × Str)) (k : String) (d : Str) : Str :=
  match l.find? (fun p => p.1 == k) with
  | some p => p.2
  | none => d

/-- The document-building loop of `load_pdf_file` (lines 71-85): one record
per fixed slot, with the five metadata keys. -/
def buildFixedDocuments (courseInfo : List (String × Str))
    (sourceName courseName : Str) : List CourseDoc :=
  docSectionConfigs.map (fun cfg =>
    ⟨lookupD courseInfo cfg.1 (str ("Thông tin ") ++ str cfg.2.1 ++ str (" của khóa học.")),
     [("source", sourceName), ("course_name", courseName),
      ("section", str cfg.1), ("section_title", str cfg.2.1),
      ("section_type", str cfg.2.2)]⟩)

/-- Source `load_pdf_file` (lines 33-99) without the PDF reading: when
`course_info and len(course_info) >= 2` holds the three fixed documents are
built; otherwise the source falls back to chunking with an external text
splitter, modelled here as `none`. -/
def loadPdfFileDocs (fullText : Str) (sourceName courseName : Str) :
    Option (List CourseDoc) :=
  let courseInfo := extractCourseInfo fullText
  if courseInfo ≠ [] ∧ 2 ≤ courseInfo.length then
    some (buildFixedDocuments courseInfo sourceName courseName)
  else none

/- ------------------------------------------------------------------ -/
/- Matcher metatheory used by the boundary-invariant claim: a returned
   match never leaves the subject, and a pattern that cannot match the
   empty word consumes at least one character. -/

/-- Whether a regex can match the empty word. -/
def nullable : RE → Bool
  | .eps => true
  | .lit _ => false
  | .cls _ _ => false
  | .dot => false
  | .bol => true
  | .eol => true
  | .seq a b => nullable a && nullable b
  | .alt a b => nullable a || nullable b
  | .star _ _ => true
  | .opt _ _ => true
  | .group _ r => nullable r
  | .look _ => true

/-- Whether a pattern string parses to a non-nullable regex (a failed parse
counts as non-matching, hence trivially fine). -/
def patNonNull (pat : Str) : Bool :=
  match topParse pat with
  | some (r, _) => !nullable r
  | none => true

/-- All patterns, keyword patterns and stop patterns of a section
configuration (together with the shared generic stops) parse to
non-nullable regexes. -/
def cfgNonNull (cfg : SectionCfg) : Bool :=
  cfg.patterns.all patNonNull &&
  cfg.keywords.all (fun kw => patNonNull (kwPattern kw)) &&
  cfg.stops.all patNonNull &&
  genericStops.all patNonNull

/- ------------------------------------------------------------------ -/
/- Concrete inputs used by the claims. -/

/-- A 104-character plain-prose input: no Vietnamese section headers, no
keywords, no digits, so every structured pattern fails on it, and it is a
fixed point of `cleanText`. -/
def proseInput : Str :=
  str ("the quick brown fox wanders over the quiet meadow at dawn while the lazy dog rests beside the old fence.")

/-- A 100-character input whose trailing space makes its stripped length
99. -/
def padInput : Str := List.replicate 99 ('a') ++ [' ']

/-- The example line of the specification: a course-structure marker and a
company-address pattern on one line. -/
def addressLine : Str := str ("Module 3 — Tầng 5, Quận 1")

/-- An input on which character filtering turns `h#ọc` into the
spaced-diacritic artifact `h ọc`, which only a second cleaning pass
repairs. -/
def encodingInput : Str := str ("h#ọc được nhiều kiến thức mới.")

/-- A cleaned course sentence that is a fixed point of `cleanText`. -/
def cleanSentence : Str :=
  str ("Khóa học này cung cấp kiến thức nền tảng về điện toán đám mây.")

/-- A duration statement immediately followed by a training-format heading
and body, phrased so that only the meaningful-text fallback of
`_extract_precise_section1` matches. -/
def durationLeakInput : Str :=
  str ("Docker là một nền tảng mạnh. Thời lượng 40 giờ học. Hình thức đào tạo: học trực tuyến với giảng viên.")

/-- A `II. Thời lượng` heading with a colon, followed by a training-format
heading and body. -/
def durationPlainInput : Str :=
  str ("II. Thời lượng khóa học: 40 giờ. Hình thức đào tạo: học trực tuyến qua video.")

/-- Input with `II. Thời lượng` at offset 0 and `III. Hình thức` starting exactly 40
characters later. -/
def tieBreakHinhThucInput : Str :=
  str ("II. Thời lượng: học tập trung nhiều giờ III. Hình thức đào tạo từ xa qua video nền tảng ở xa.")

/-- Input with `II. Thời lượng` at offset 0 and `III. Mục tiêu` starting 61
characters later (more than the 50-character stop-search offset). -/
def tieBreakStopInput : Str :=
  str ("II. Thời lượng: học tập trung nhiều giờ trong các buổi chiều III. Mục tiêu khóa học nâng cao kỹ năng.")

/- ------------------------------------------------------------------ -/
/- Matcher metatheory: a successful match invokes its continuation at an
   in-bounds position at or after the current one, strictly after when the
   regex cannot match the empty word. -/

theorem mAt_some (fl : RFlags) (t : Str) :
    ∀ f r rest pos cp k res, mAt fl t f r rest pos cp k = some res →
    ∃ rest2 pos2 cp2, k rest2 pos2 cp2 = some res ∧ pos ≤ pos2 ∧
      pos2 + rest2.length = pos + rest.length ∧
      (nullable r = false → pos + 1 ≤ pos2) := by
  intro f
  induction f with
  | zero =>
    intro r rest pos cp k res h
    simp [mAt] at h
  | succ f ih =>
    intro r rest pos cp k res h
    cases r with
    | eps =>
      simp only [mAt] at h
      exact ⟨rest, pos, cp, h, le_refl _, rfl, by simp [nullable]⟩
    | lit c =>
      cases rest with
      | nil => simp [mAt] at h
      | cons a rs =>
        by_cases hc : chEqB fl.ic c a = true
        · simp only [mAt, hc, if_true] at h
          exact ⟨rs, pos + 1, cp, h, by omega, by simp; omega, fun _ => by omega⟩
        · simp [mAt, hc] at h
    | cls neg items =>
      cases rest with
      | nil => simp [mAt] at h
      | cons a rs =>
        by_cases hc : inClassB fl.ic neg items a = true
        · simp only [mAt, hc, if_true] at h
          exact ⟨rs, pos + 1, cp, h, by omega, by simp; omega, fun _ => by omega⟩
        · simp [mAt, hc] at h
    | dot =>
      cases rest with
      | nil => simp [mAt] at h
      | cons a rs =>
        by_cases hc : (a == '\n' && !fl.ds) = true
        · simp [mAt, hc] at h
        · simp only [mAt, hc, if_false] at h
          exact ⟨rs, pos + 1, cp, h, by omega, by simp; omega, fun _ => by omega⟩
    | bol =>
      simp only [mAt] at h
      split at h
      · exact ⟨rest, pos, cp, h, le_refl _, rfl, by simp [nullable]⟩
      · simp at h
    | eol =>
      cases rest with
      | nil =>
        exact ⟨[], pos, cp, h, le_refl _, rfl, by simp [nullable]⟩
      | cons a rs =>
        by_cases ha : a = '\n'
        · subst ha
          have e : mAt fl t (f + 1) RE.eol ('\n' :: rs) pos cp k =
              if (fl.ml || rs.isEmpty) = true then k ('\n' :: rs) pos cp else none := rfl
          rw [e] at h
          split at h
          · exact ⟨'\n' :: rs, pos, cp, h, le_refl _, rfl, by simp [nullable]⟩
          · simp at h
        · have e : mAt fl t (f + 1) RE.eol (a :: rs) pos cp k = none := by
            simp only [mAt]
            split
            · rename_i heq
              cases heq
            · rename_i rs2 heq
              injection heq with h1 h2
              exact absurd h1 ha
            · rfl
          rw [e] at h
          simp at h
    | seq a b =>
      simp only [mAt] at h
      obtain ⟨r2, p2, c2, hk2, hle2, hlen2, hnn2⟩ := ih a rest pos cp _ res h
      obtain ⟨r3, p3, c3, hk3, hle3, hlen3, hnn3⟩ := ih b r2 p2 c2 _ res hk2
      refine ⟨r3, p3, c3, hk3, le_trans hle2 hle3, by omega, ?_⟩
      intro hn
      rw [nullable, Bool.and_eq_false_iff] at hn
      rcases hn with hn | hn
      · exact le_trans (hnn2 hn) hle3
      · have := hnn3 hn
        omega
    | alt a b =>
      simp only [mAt] at h
      cases hm : mAt fl t f a rest pos cp k with
      | some res' =>
        rw [hm] at h
        injection h with h
        subst h
        obtain ⟨r2, p2, c2, hk2, hle2, hlen2, hnn2⟩ := ih a rest pos cp k res' hm
        refine ⟨r2, p2, c2, hk2, hle2, hlen2, ?_⟩
        intro hn
        rw [nullable, Bool.or_eq_false_iff] at hn
        exact hnn2 hn.1
      | none =>
        rw [hm] at h
        obtain ⟨r2, p2, c2, hk2, hle2, hlen2, hnn2⟩ := ih b rest pos cp k res h
        refine ⟨r2, p2, c2, hk2, hle2, hlen2, ?_⟩
        intro hn
        rw [nullable, Bool.or_eq_false_iff] at hn
        exact hnn2 hn.2
    | star lz a =>
      cases lz with
      | true =>
        have hstep : ∀ res', mAt fl t f a rest pos cp
            (fun r2 p2 c2 => if p2 == pos then k r2 p2 c2
              else mAt fl t f (.star true a) r2 p2 c2 k) = some res' →
            ∃ rest2 pos2 cp2, k rest2 pos2 cp2 = some res' ∧ pos ≤ pos2 ∧
              pos2 + rest2.length = pos + rest.length := by
          intro res' hbody
          obtain ⟨r2, p2, c2, hk2, hle2, hlen2, _⟩ := ih a rest pos cp _ res' hbody
          by_cases hp : p2 = pos
          · subst hp
            simp only [beq_self_eq_true, if_true] at hk2
            exact ⟨r2, p2, c2, hk2, hle2, hlen2⟩
          · have hne : (p2 == pos) = false := by simp [hp]
            rw [hne] at hk2
            simp only [Bool.false_eq_true, if_false] at hk2
            obtain ⟨r3, p3, c3, hk3, hle3, hlen3, _⟩ := ih (.star true a) r2 p2 c2 k res' hk2
            exact ⟨r3, p3, c3, hk3, le_trans hle2 hle3, by omega⟩
        have e : mAt fl t (f + 1) (RE.star true a) rest pos cp k =
            match k rest pos cp with
            | some r0 => some r0
            | none => mAt fl t f a rest pos cp
                (fun r2 p2 c2 => if p2 == pos then k r2 p2 c2
                  else mAt fl t f (.star true a) r2 p2 c2 k) := rfl
        cases hk : k rest pos cp with
        | some v =>
          rw [e, hk] at h
          have h2 : some v = some res := h
          injection h2 with h2
          subst h2
          exact ⟨rest, pos, cp, hk, le_refl _, rfl, by simp [nullable]⟩
        | none =>
          rw [e, hk] at h
          have h2 : mAt fl t f a rest pos cp
              (fun r2 p2 c2 => if p2 == pos then k r2 p2 c2
                else mAt fl t f (.star true a) r2 p2 c2 k) = some res := h
          obtain ⟨r2, p2, c2, hk2, hle2, hlen2⟩ := hstep res h2
          exact ⟨r2, p2, c2, hk2, hle2, hlen2, by simp [nullable]⟩
      | false =>
        have hstep : ∀ res', mAt fl t f a rest pos cp
            (fun r2 p2 c2 => if p2 == pos then k r2 p2 c2
              else mAt fl t f (.star false a) r2 p2 c2 k) = some res' →
            ∃ rest2 pos2 cp2, k rest2 pos2 cp2 = some res' ∧ pos ≤ pos2 ∧
              pos2 + rest2.length = pos + rest.length := by
          intro res' hbody
          obtain ⟨r2, p2, c2, hk2, hle2, hlen2, _⟩ := ih a rest pos cp _ res' hbody
          by_cases hp : p2 = pos
          · subst hp
            simp only [beq_self_eq_true, if_true] at hk2
            exact ⟨r2, p2, c2, hk2, hle2, hlen2⟩
          · have hne : (p2 == pos) = false := by simp [hp]
            rw [hne] at hk2
            simp only [Bool.false_eq_true, if_false] at hk2
            obtain ⟨r3, p3, c3, hk3, hle3, hlen3, _⟩ := ih (.star false a) r2 p2 c2 k res' hk2
            exact ⟨r3, p3, c3, hk3, le_trans hle2 hle3, by omega⟩
        have e : mAt fl t (f + 1) (RE.star false a) rest pos cp k =
            match mAt fl t f a rest pos cp
                (fun r2 p2 c2 => if p2 == pos then k r2 p2 c2
                  else mAt fl t f (.star false a) r2 p2 c2 k) with
            | some r0 => some r0
            | none => k rest pos cp := rfl
        cases hm : mAt fl t f a rest pos cp
            (fun r2 p2 c2 => if p2 == pos then k r2 p2 c2
              else mAt fl t f (.star false a) r2 p2 c2 k) with
        | some v =>
          rw [e, hm] at h
          have h2 : some v = some res := h
          injection h2 with h2
          subst h2
          obtain ⟨r2, p2, c2, hk2, hle2, hlen2⟩ := hstep v hm
          exact ⟨r2, p2, c2, hk2, hle2, hlen2, by simp [nullable]⟩
        | none =>
          rw [e, hm] at h
          have h2 : k rest pos cp = some res := h
          exact ⟨rest, pos, cp, h2, le_refl _, rfl, by simp [nullable]⟩
    | opt lz a =>
      cases lz with
      | true =>
        have e : mAt fl t (f + 1) (RE.opt true a) rest pos cp k =
            match k rest pos cp with
            | some r0 => some r0
            | none => mAt fl t f a rest pos cp k := rfl
        cases hk : k rest pos cp with
        | some v =>
          rw [e, hk] at h
          have h2 : some v = some res := h
          injection h2 with h2
          subst h2
          exact ⟨rest, pos, cp, hk, le_refl _, rfl, by simp [nullable]⟩
        | none =>
          rw [e, hk] at h
          have h2 : mAt fl t f a rest pos cp k = some res := h
          obtain ⟨r2, p2, c2, hk2, hle2, hlen2, _⟩ := ih a rest pos cp k res h2
          exact ⟨r2, p2, c2, hk2, hle2, hlen2, by simp [nullable]⟩
      | false =>
        have e : mAt fl t (f + 1) (RE.opt false a) rest pos cp k =
            match mAt fl t f a rest pos cp k with
            | some r0 => some r0
            | none => k rest pos cp := rfl
        cases hm : mAt fl t f a rest pos cp k with
        | some v =>
          rw [e, hm] at h
          have h2 : some v = some res := h
          injection h2 with h2
          subst h2
          obtain ⟨r2, p2, c2, hk2, hle2, hlen2, _⟩ := ih a rest pos cp k v hm
          exact ⟨r2, p2, c2, hk2, hle2, hlen2, by simp [nullable]⟩
        | none =>
          rw [e, hm] at h
          have h2 : k rest pos cp = some res := h
          exact ⟨rest, pos, cp, h2, le_refl _, rfl, by simp [nullable]⟩
    | group i a =>
      simp only [mAt] at h
      obtain ⟨r2, p2, c2, hk2, hle2, hlen2, hnn2⟩ := ih a rest pos cp _ res h
      refine ⟨r2, p2, (i, pos, p2) :: c2, hk2, hle2, hlen2, ?_⟩
      intro hn
      exact hnn2 (by simpa [nullable] using hn)
    | look a =>
      simp only [mAt] at h
      cases hm : mAt fl t f a rest pos cp (fun _ _ c2 => some (0, c2)) with
      | some v =>
        rw [hm] at h
        exact ⟨rest, pos, v.2, by cases v; exact h, le_refl _, rfl, by simp [nullable]⟩
      | none =>
        rw [hm] at h
        simp at h

theorem firstSome_some {α β : Type} (f : α → Option β) :
    ∀ (l : List α) (b : β), firstSome f l = some b → ∃ a ∈ l, f a = some b := by
  intro l
  induction l with
  | nil => intro b h; simp [firstSome] at h
  | cons a rest ih =>
    intro b h
    cases hf : f a with
    | some v =>
      have e : firstSome f (a :: rest) = some v := by simp [firstSome, hf]
      rw [e] at h
      injection h with h
      subst h
      exact ⟨a, by simp, hf⟩
    | none =>
      have e : firstSome f (a :: rest) = firstSome f rest := by simp [firstSome, hf]
      rw [e] at h
      obtain ⟨a2, hm, hfa⟩ := ih b h
      exact ⟨a2, by simp [hm], hfa⟩

theorem sFrom_some (fl : RFlags) (t : Str) (r : RE) (fuelM : Nat) :
    ∀ (rest : Str) (pos i e : Nat) (cp : Caps), pos + rest.length = t.length →
    sFrom fl t r fuelM rest pos = some (i, e, cp) →
    pos ≤ i ∧ i ≤ e ∧ e ≤ t.length ∧ (nullable r = false → i < e) := by
  intro rest
  induction rest with
  | nil =>
    intro pos i e cp hlen h
    cases hm : mAt fl t fuelM r [] pos [] (fun _ p2 c2 => some (p2, c2)) with
    | some v =>
      obtain ⟨ve, vc⟩ := v
      have e2 : sFrom fl t r fuelM [] pos = some (pos, ve, vc) := by
        simp only [sFrom, hm]
      rw [e2] at h
      injection h with h
      injection h with h1 h23
      injection h23 with h2 h3
      subst h1; subst h2; subst h3
      obtain ⟨rest2, pos2, cp2, hk2, hle2, hlen2, hnn2⟩ :=
        mAt_some fl t fuelM r [] pos [] _ (ve, vc) hm
      have hp : pos2 = ve := by
        have h2 : some (pos2, cp2) = some (ve, vc) := hk2
        rw [Option.some.injEq, Prod.mk.injEq] at h2
        exact h2.1
      subst hp
      simp only [List.length_nil] at hlen2
      refine ⟨le_refl _, hle2, by omega, fun hn => hnn2 hn⟩
    | none =>
      have e2 : sFrom fl t r fuelM [] pos = none := by simp only [sFrom, hm]
      rw [e2] at h
      cases h
  | cons c rs ih =>
    intro pos i e cp hlen h
    cases hm : mAt fl t fuelM r (c :: rs) pos [] (fun _ p2 c2 => some (p2, c2)) with
    | some v =>
      obtain ⟨ve, vc⟩ := v
      have e2 : sFrom fl t r fuelM (c :: rs) pos = some (pos, ve, vc) := by
        simp only [sFrom, hm]
      rw [e2] at h
      injection h with h
      injection h with h1 h23
      injection h23 with h2 h3
      subst h1; subst h2; subst h3
      obtain ⟨rest2, pos2, cp2, hk2, hle2, hlen2, hnn2⟩ :=
        mAt_some fl t fuelM r (c :: rs) pos [] _ (ve, vc) hm
      have hp : pos2 = ve := by
        have h2 : some (pos2, cp2) = some (ve, vc) := hk2
        rw [Option.some.injEq, Prod.mk.injEq] at h2
        exact h2.1
      subst hp
      simp only [List.length_cons] at hlen hlen2
      refine ⟨le_refl _, hle2, by omega, fun hn => hnn2 hn⟩
    | none =>
      have e2 : sFrom fl t r fuelM (c :: rs) pos = sFrom fl t r fuelM rs (pos + 1) := by
        simp only [sFrom, hm]
      rw [e2] at h
      have hlen2 : pos + 1 + rs.length = t.length := by
        simp only [List.length_cons] at hlen
        omega
      obtain ⟨ha, hb, hc, hd⟩ := ih (pos + 1) i e cp hlen2 h
      exact ⟨by omega, hb, hc, hd⟩

theorem pySearch_some (fl : RFlags) (pat t : Str) (i e : Nat) (cp : Caps)
    (h : pySearch fl pat t = some (i, e, cp)) :
    i ≤ e ∧ e ≤ t.length ∧ (patNonNull pat = true → i < e) := by
  unfold pySearch at h
  cases hp : topParse pat with
  | none => rw [hp] at h; cases h
  | some rp =>
    obtain ⟨r, inl⟩ := rp
    rw [hp] at h
    simp only at h
    have hb := sFrom_some _ t r (stdFuel r t.length) t 0 i e cp (by simp) h
    refine ⟨hb.2.1, hb.2.2.1, ?_⟩
    intro hnn
    apply hb.2.2.2
    unfold patNonNull at hnn
    rw [hp] at hnn
    simpa using hnn

theorem tightenStops_bound (flx : RFlags) (t : Str) (s off : Nat) (hoff : 0 < off) :
    ∀ (pats : List Str) (init : Nat), pats.all patNonNull = true →
    s < init → init ≤ t.length →
    s < tightenStops flx t s off pats init ∧ tightenStops flx t s off pats init ≤ t.length := by
  intro pats
  induction pats with
  | nil =>
    intro init _ h1 h2
    exact ⟨h1, h2⟩
  | cons p ps ih =>
    intro init hall h1 h2
    rw [List.all_cons, Bool.and_eq_true] at hall
    cases hm : pySearch flx p (t.drop (s + off)) with
    | none =>
      have e : tightenStops flx t s off (p :: ps) init = tightenStops flx t s off ps init := by
        simp only [tightenStops, List.foldl_cons, hm]
      rw [e]
      exact ih init hall.2 h1 h2
    | some x =>
      obtain ⟨i, e', cp⟩ := x
      have e : tightenStops flx t s off (p :: ps) init =
          tightenStops flx t s off ps (min init (s + off + i)) := by
        simp only [tightenStops, List.foldl_cons, hm]
      rw [e]
      have hb := pySearch_some flx p (t.drop (s + off)) i e' cp hm
      have hlt : i < e' := hb.2.2 hall.1
      have hle : e' ≤ t.length - (s + off) := by
        have := hb.2.1
        rwa [List.length_drop] at this
      have hcand : s < s + off + i ∧ s + off + i ≤ t.length := by omega
      exact ih _ hall.2 (by omega) (by omega)

theorem sectionConfigs_nonNull : ∀ c ∈ sectionConfigs, cfgNonNull c.2 = true := by decide

theorem getConfig_nonNull (name : String) (cfg : SectionCfg)
    (h : getConfig name = some cfg) : cfgNonNull cfg = true := by
  unfold getConfig at h
  cases hf : sectionConfigs.find? (fun p => p.1 == name) with
  | none => rw [hf] at h; cases h
  | some p =>
    rw [hf] at h
    have h2 : p.2 = cfg := by injection h
    rw [← h2]
    exact sectionConfigs_nonNull p (List.mem_of_find?_eq_some hf)

theorem findBoundsCfg_some (cfg : SectionCfg) (t : Str) (s e : Nat)
    (hnn : cfgNonNull cfg = true)
    (h : findBoundsCfg cfg t = some (s, e)) : s < e ∧ e ≤ t.length := by
  unfold cfgNonNull at hnn
  rw [Bool.and_eq_true, Bool.and_eq_true, Bool.and_eq_true] at hnn
  obtain ⟨⟨⟨hpats, hkws⟩, hstops⟩, hgen⟩ := hnn
  unfold findBoundsCfg at h
  dsimp only at h
  have hlow : (lowerStr t).length = t.length := by simp [lowerStr]
  -- analyse the start search
  have hstart : ∀ s0, (match firstSome (fun p => (pySearch flIM p (lowerStr t)).map (fun x : Nat × Nat × Caps => x.1)) cfg.patterns with
      | some s1 => some s1
      | none => firstSome (fun kw => (pySearch flI (kwPattern kw) (lowerStr t)).map (fun x : Nat × Nat × Caps => x.1)) cfg.keywords) = some s0 →
      s0 < t.length := by
    intro s0 hs0
    cases hfp : firstSome (fun p => (pySearch flIM p (lowerStr t)).map (fun x => x.1)) cfg.patterns with
    | some s1 =>
      rw [hfp] at hs0
      have hss : s1 = s0 := by injection hs0
      obtain ⟨p, hmem, hp⟩ := firstSome_some _ cfg.patterns s1 hfp
      cases hps : pySearch flIM p (lowerStr t) with
      | none => rw [hps] at hp; cases hp
      | some x =>
        obtain ⟨i, e', cp⟩ := x
        rw [hps] at hp
        have his : i = s1 := by simpa using hp
        have hb := pySearch_some flIM p (lowerStr t) i e' cp hps
        have hlt : i < e' := hb.2.2 (by
          rw [List.all_eq_true] at hpats
          exact hpats p hmem)
        have hel := hb.2.1
        rw [hlow] at hel
        omega
    | none =>
      rw [hfp] at hs0
      obtain ⟨kw, hmem, hp⟩ := firstSome_some _ cfg.keywords s0 hs0
      cases hps : pySearch flI (kwPattern kw) (lowerStr t) with
      | none => rw [hps] at hp; cases hp
      | some x =>
        obtain ⟨i, e', cp⟩ := x
        rw [hps] at hp
        have his : i = s0 := by simpa using hp
        have hb := pySearch_some flI (kwPattern kw) (lowerStr t) i e' cp hps
        have hlt : i < e' := hb.2.2 (by
          rw [List.all_eq_true] at hkws
          exact hkws kw hmem)
        have hel := hb.2.1
        rw [hlow] at hel
        omega
  cases hst : (match firstSome (fun p => (pySearch flIM p (lowerStr t)).map (fun x : Nat × Nat × Caps => x.1)) cfg.patterns with
      | some s1 => some s1
      | none => firstSome (fun kw => (pySearch flI (kwPattern kw) (lowerStr t)).map (fun x : Nat × Nat × Caps => x.1)) cfg.keywords) with
  | none =>
    rw [hst] at h
    cases h
  | some s0 =>
    rw [hst] at h
    injection h with h
    injection h with h1 h2
    subst h1
    subst h2
    have hs0 : s0 < t.length := hstart s0 hst
    have hb1 := tightenStops_bound flIM t s0 50 (by omega) cfg.stops t.length hstops hs0 (le_refl _)
    have hb2 := tightenStops_bound flI t s0 100 (by omega) genericStops
      (tightenStops flIM t s0 50 cfg.stops t.length) hgen hb1.1 hb1.2
    exact hb2

/- ------------------------------------------------------------------ -/
/- Helper lemmas for the assembler claims. -/

theorem dropWhile_length_le (p : Char → Bool) :
    ∀ l : Str, (l.dropWhile p).length ≤ l.length := by
  intro l
  induction l with
  | nil => simp
  | cons a rest ih =>
    rw [List.dropWhile_cons]
    split
    · exact le_trans ih (by simp)
    · exact le_refl _

theorem pyStrip_length_le (t : Str) : (pyStrip t).length ≤ t.length := by
  unfold pyStrip
  rw [List.length_reverse]
  calc ((t.dropWhile isPySpace).reverse.dropWhile isPySpace).length
      ≤ (t.dropWhile isPySpace).reverse.length := dropWhile_length_le _ _
    _ = (t.dropWhile isPySpace).length := List.length_reverse _
    _ ≤ t.length := dropWhile_length_le _ _

theorem ite_isEmpty_ne_nil (r d : Str) (hd : d ≠ []) :
    (if r.isEmpty then d else r) ≠ [] := by
  split
  · exact hd
  · rename_i h
    intro hc
    rw [hc] at h
    exact h rfl

theorem ite_isEmpty_app_ne_nil (r d p : Str) (hd : d ≠ []) (hp : p ≠ []) :
    (if r.isEmpty then d else p ++ r) ≠ [] := by
  split
  · exact hd
  · intro hc
    exact hp (List.append_eq_nil.mp hc).1

theorem extractPreciseSection1_ne_nil (t : Str) (raw : List (String × Str)) :
    extractPreciseSection1 t raw ≠ [] := by
  unfold extractPreciseSection1
  exact ite_isEmpty_ne_nil _ _ (by decide)

theorem extractPreciseSection2_ne_nil (t : Str) (raw : List (String × Str)) :
    extractPreciseSection2 t raw ≠ [] := by
  unfold extractPreciseSection2
  exact ite_isEmpty_ne_nil _ _ (by decide)

theorem extractPreciseSection3_ne_nil (t : Str) (raw : List (String × Str)) :
    extractPreciseSection3 t raw ≠ [] := by
  unfold extractPreciseSection3
  exact ite_isEmpty_app_ne_nil _ _ _ (by decide) (by decide)

theorem extractCourseInfo_of_ge (t : Str) (h : 100 ≤ (pyStrip t).length) :
    extractCourseInfo t =
      createFixedSections
        (sectionNames.foldl (fun acc name =>
          let c := extractSectionContent (cleanText t) name
          if ¬ c.isEmpty ∧ 30 < (pyStrip c).length then acc ++ [(name, c)] else acc) [])
        (cleanText t) := by
  unfold extractCourseInfo
  rw [if_neg (by omega)]

theorem extractCourseInfo_shape (t : Str) :
    extractCourseInfo t = [] ∨
    (extractCourseInfo t).map Prod.fst =
      ["section1_intro_duration", "section2_objectives_audience", "section3_content"] := by
  unfold extractCourseInfo
  split
  · exact Or.inl rfl
  · right
    unfold createFixedSections
    rfl

/- ------------------------------------------------------------------ -/
/- Claim theorems. -/

/-- Claim C7: an input of fewer than 100 characters (in particular the
empty input) yields the empty result map, and the embedding is total, so
no failure escapes `extract_course_info`: the guard
`len(text.strip()) < 100` is satisfied because stripping never lengthens
the text. -/
theorem c7_short_input_empty_result (t : Str) (h : t.length < 100) :
    extractCourseInfo t = [] := by
  unfold extractCourseInfo
  rw [if_pos]
  exact lt_of_le_of_lt (pyStrip_length_le t) h

/-- Claim C7 witness at a concrete 8-character input. -/
theorem c7_witness_short_input :
    (str ("xin chào")).length < 100 ∧ extractCourseInfo (str ("xin chào")) = [] :=
  ⟨by decide, c7_short_input_empty_result (str ("xin chào")) (by decide)⟩

/-- Claim C10: `extract_course_info` is all-or-nothing: its result is the
empty map or has exactly the three fixed keys in order, so the caller
check "at least 2 sections" is equivalent to the result being non-empty. -/
theorem c10_all_or_nothing (t : Str) :
    (extractCourseInfo t = [] ∨
      (extractCourseInfo t).map Prod.fst =
        ["section1_intro_duration", "section2_objectives_audience", "section3_content"]) ∧
    (2 ≤ (extractCourseInfo t).length ↔ extractCourseInfo t ≠ []) := by
  refine ⟨extractCourseInfo_shape t, ?_, ?_⟩
  · intro h2 hc
    rw [hc] at h2
    simp at h2
  · intro hne
    rcases extractCourseInfo_shape t with h | h
    · exact absurd h hne
    · have h3 : (extractCourseInfo t).length = 3 := by
        have := congrArg List.length h
        simpa using this
      omega

/-- Claim C2 (amended): for every input whose stripped length is at least
100, the assembler returns exactly the three fixed sections, each with a
non-empty value (a fixed placeholder only as a last resort). -/
theorem c2_three_nonempty_sections (t : Str) (h : 100 ≤ (pyStrip t).length) :
    (extractCourseInfo t).map Prod.fst =
      ["section1_intro_duration", "section2_objectives_audience", "section3_content"] ∧
    ∀ p ∈ extractCourseInfo t, p.2 ≠ [] := by
  rw [extractCourseInfo_of_ge t h]
  constructor
  · rfl
  · intro p hp
    unfold createFixedSections at hp
    dsimp only at hp
    rcases List.mem_cons.mp hp with h1 | hp
    · rw [h1]
      dsimp only
      apply extractPreciseSection1_ne_nil
    rcases List.mem_cons.mp hp with h2 | hp
    · rw [h2]
      dsimp only
      apply extractPreciseSection2_ne_nil
    rcases List.mem_cons.mp hp with h3 | hp
    · rw [h3]
      dsimp only
      apply extractPreciseSection3_ne_nil
    · cases hp

/-- Claim C9: whenever `find_section_boundaries` returns a span, it is
well-formed: the start is strictly below the end and the end does not
exceed the text length, so the extracted slice is non-empty and in
bounds. -/
theorem c9_boundaries_well_formed (t : Str) (name : String) (s e : Nat)
    (h : findSectionBoundaries t name = some (s, e)) : s < e ∧ e ≤ t.length := by
  unfold findSectionBoundaries at h
  cases hg : getConfig name with
  | none => rw [hg] at h; cases h
  | some cfg =>
    rw [hg] at h
    exact findBoundsCfg_some cfg t s e (getConfig_nonNull name cfg hg) h

/-- Claim C8: when structured extraction succeeded, the document builder
emits exactly three records, in slot order, with the fixed titles and
exactly the metadata keys source, course_name, section, section_title,
section_type. -/
theorem c8_builder_three_records (t sn cn : Str) (docs : List CourseDoc)
    (h : loadPdfFileDocs t sn cn = some docs) :
    docs.length = 3 ∧
    docs.map CourseDoc.metadata =
      [ [("source", sn), ("course_name", cn),
         ("section", str ("section1_intro_duration")),
         ("section_title", str ("Giới thiệu và Thời lượng")),
         ("section_type", str ("intro_duration"))],
        [("source", sn), ("course_name", cn),
         ("section", str ("section2_objectives_audience")),
         ("section_title", str ("Mục tiêu và Đối tượng")),
         ("section_type", str ("objectives_audience"))],
        [("source", sn), ("course_name", cn),
         ("section", str ("section3_content")),
         ("section_title", str ("Nội dung Khóa học")),
         ("section_type", str ("course_content"))] ] := by
  unfold loadPdfFileDocs at h
  dsimp only at h
  split at h
  · injection h with h
    subst h
    exact ⟨rfl, rfl⟩
  · cases h

/-- Claim C2 (counterexample): a 100-character input whose stripped length
is 99 yields the empty map, not three sections, because the guard strips
the text before measuring it. -/
theorem c2_counterexample_strip_boundary :
    padInput.length = 100 ∧ extractCourseInfo padInput = [] := by decide

/-- Claim C2 witness: the amended statement applied to the 104-character
prose input. -/
theorem c2_witness_prose :
    100 ≤ (pyStrip proseInput).length ∧
    ((extractCourseInfo proseInput).map Prod.fst =
      ["section1_intro_duration", "section2_objectives_audience", "section3_content"] ∧
    ∀ p ∈ extractCourseInfo proseInput, p.2 ≠ []) :=
  ⟨by decide, c2_three_nonempty_sections proseInput (by decide)⟩

/-- Claim C7 witness is `c7_witness_short_input` above; claim C8 witness:
the builder applied to the prose input, whose extraction succeeds. -/
theorem c8_witness_prose_docs :
    loadPdfFileDocs proseInput (str ("course.pdf")) (str ("course")) =
      some (buildFixedDocuments (extractCourseInfo proseInput)
        (str ("course.pdf")) (str ("course"))) ∧
    (buildFixedDocuments (extractCourseInfo proseInput)
        (str ("course.pdf")) (str ("course"))).length = 3 := by
  have hlen : (extractCourseInfo proseInput).length = 3 := by decide
  have hne : extractCourseInfo proseInput ≠ [] := by
    intro hc
    rw [hc] at hlen
    simp at hlen
  have hsome : loadPdfFileDocs proseInput (str ("course.pdf")) (str ("course")) =
      some (buildFixedDocuments (extractCourseInfo proseInput)
        (str ("course.pdf")) (str ("course"))) := by
    unfold loadPdfFileDocs
    dsimp only
    rw [if_pos ⟨hne, by omega⟩]
  exact ⟨hsome,
    (c8_builder_three_records proseInput (str ("course.pdf")) (str ("course")) _ hsome).1⟩

/-- Claim C9 witness: a concrete duration span, well-formed. -/
theorem c9_witness_duration_bounds :
    findSectionBoundaries tieBreakStopInput ("duration") = some (0, 61) ∧
    0 < 61 ∧ 61 ≤ tieBreakStopInput.length := by
  have h : findSectionBoundaries tieBreakStopInput ("duration") = some (0, 61) := by decide
  exact ⟨h, (c9_boundaries_well_formed tieBreakStopInput ("duration") 0 61 h).1,
    (c9_boundaries_well_formed tieBreakStopInput ("duration") 0 61 h).2⟩

/-- Claim C3 (counterexample): the line "Module 3 — Tầng 5, Quận 1"
matches an address noise pattern and carries a course-structure marker,
yet `clean_text` does not keep it verbatim: its output does not contain
the line at all. -/
theorem c3_counterexample_module_address_line :
    (pySearch flIM (str ("Tầng \\d+.*?(?=\\n[A-ZÀÁẢÃẠ]|\\n\\n|$)")) addressLine).isSome = true ∧
    (pySearch flI (str ("Module\\s*\\d+")) addressLine).isSome = true ∧
    containsSub (cleanText addressLine) addressLine = false := by decide

/-- Claim C3 (amended): the noise-keyword check covers only the matched
substring, so the address match "Tầng 5, Quận 1" is deleted although the
line carries a Module marker; the final line pass keeps the truncated
"Module 3 —", and short-line removal then drops it, so `clean_text`
returns the empty string on this line. -/
theorem c3_address_line_deleted :
    removeCompanyNoise addressLine = str ("Module 3 —") ∧
    cleanText addressLine = [] := by decide

/-- Claim C6 (counterexample): `clean_text` is not idempotent: character
filtering turns `h#ọc` into `h ọc`, which only the second pass's encoding
repair merges to `học`. -/
theorem c6_counterexample_not_idempotent :
    cleanText (cleanText encodingInput) ≠ cleanText encodingInput := by decide

/-- Claim C6 (amended): a second application of `clean_text` is the
identity on inputs that are already fixed points of the pipeline, as on
this representative cleaned course sentence. -/
theorem c6_clean_text_idempotent_on_fixed_point :
    cleanText cleanSentence = cleanSentence ∧
    cleanText (cleanText cleanSentence) = cleanText cleanSentence := by decide

/-- Claim C4 (counterexample): on a text with a duration statement
immediately followed by a "Hình thức đào tạo" heading and body, the
meaningful-text fallback tier of `_extract_precise_section1` captures
through the heading, so the assembled `intro_duration` contains the
training-format body. -/
theorem c4_counterexample_meaningful_fallback_leak :
    containsSub durationLeakInput (str ("Thời lượng 40 giờ")) = true ∧
    containsSub durationLeakInput (str ("Hình thức đào tạo:")) = true ∧
    containsSub (extractPreciseSection1 durationLeakInput [])
      (str ("học trực tuyến với giảng viên")) = true := by decide

/-- Claim C4 (amended): when the duration patterns themselves locate the
duration text, `_extract_precise_section1` strips the "Hình thức đào tạo"
part, and the assembled `intro_duration` contains nothing of the
training-format body. -/
theorem c4_duration_pattern_excludes_training_format :
    extractPreciseSection1 durationPlainInput [] = str ("Thời lượng:\n40 giờ.") ∧
    containsSub (str ("Thời lượng:\n40 giờ.")) (str ("trực tuyến")) = false := by decide

/-- Claim C5 (counterexample): "III. Hình thức" is not a duration stop
pattern, and the generic stops are searched only 100 characters past the
start, so with "III. Hình thức" beginning 40 characters after
"II. Thời lượng" the located duration span ends at the text length (93),
not strictly before offset 40. -/
theorem c5_counterexample_hinh_thuc_not_stop :
    findSectionBoundaries tieBreakHinhThucInput ("duration") = some (0, 93) ∧
    pySlice tieBreakHinhThucInput 40 54 = str ("III. Hình thức") ∧
    tieBreakHinhThucInput.length = 93 := by decide

/-- Claim C5 (amended): a following "III. Mục tiêu" heading at least 50
characters past the duration start bounds the span: the end offset equals
the heading's start offset (61), so the extracted duration text ends
before the heading; a "III. Hình thức" heading is not a duration stop. -/
theorem c5_muc_tieu_stop_bounds_duration :
    findSectionBoundaries tieBreakStopInput ("duration") = some (0, 61) ∧
    pySlice tieBreakStopInput 61 74 = str ("III. Mục tiêu") ∧
    61 + 13 ≤ tieBreakStopInput.length := by decide

/-- Helper: the prose input is a fixed point of the cleaner. -/
theorem proseInput_clean : cleanText proseInput = proseInput := by decide

/-- Helper: the prose input passes the 100-character guard. -/
theorem proseInput_strip : 100 ≤ (pyStrip proseInput).length := by decide

/-- Helper: no raw-section boundary is found anywhere in the prose input. -/
theorem proseInput_bounds :
    sectionNames.map (fun n => findSectionBoundaries proseInput n) =
      [none, none, none, none, none] := by decide

/-- Helper: the precise extractors ignore their `raw_sections` argument
(the source receives but never reads it). -/
theorem extractPreciseSection1_raw (t : Str) (raw : List (String × Str)) :
    extractPreciseSection1 t raw = extractPreciseSection1 t [] := rfl

/-- Helper: same for the second slot. -/
theorem extractPreciseSection2_raw (t : Str) (raw : List (String × Str)) :
    extractPreciseSection2 t raw = extractPreciseSection2 t [] := rfl

/-- Helper: same for the third slot. -/
theorem extractPreciseSection3_raw (t : Str) (raw : List (String × Str)) :
    extractPreciseSection3 t raw = extractPreciseSection3 t [] := rfl

/-- Helper: on the prose input the first slot falls back to its fixed
placeholder. -/
theorem proseInput_s1 :
    extractPreciseSection1 proseInput [] =
      str ("Thông tin giới thiệu và thời lượng khóa học.") := by decide

/-- Helper: on the prose input the second slot falls back to its fixed
placeholder. -/
theorem proseInput_s2 :
    extractPreciseSection2 proseInput [] =
      str ("Thông tin mục tiêu và đối tượng khóa học.") := by decide

/-- Helper: on the prose input the third slot falls back to its fixed
placeholder. -/
theorem proseInput_s3 :
    extractPreciseSection3 proseInput [] =
      str ("Nội dung khóa học: Thông tin chi tiết về chương trình học.") := by decide

/-- Claim C1 (counterexample): the prose input is normalized (a fixed
point of `clean_text`), has no recognizable section header for any slot
(all five raw-section searches fail), yet the first output section is the
fixed Vietnamese placeholder rather than the first third of the text, so
the concatenation of the three sections cannot reconstruct the normalized
input. -/
theorem c1_counterexample_concat_not_input :
    cleanText proseInput = proseInput ∧
    sectionNames.map (fun n => findSectionBoundaries proseInput n) =
      [none, none, none, none, none] ∧
    (extractCourseInfo proseInput).head? =
      some ("section1_intro_duration", str ("Thông tin giới thiệu và thời lượng khóa học.")) ∧
    (str ("Thông tin giới thiệu và thời lượng khóa học.")).isPrefixOf proseInput = false := by
  refine ⟨proseInput_clean, proseInput_bounds, ?_, by decide⟩
  rw [extractCourseInfo_of_ge proseInput proseInput_strip]
  unfold createFixedSections
  simp only [proseInput_clean]
  rw [extractPreciseSection1_raw, proseInput_s1]
  rfl

/-- Claim C1 (amended): when structured extraction fails for the whole
document, `extract_course_info` does not split the text into equal
thirds; each slot independently falls back to its fixed placeholder
sentence (the equal-thirds split lives in the caller
`topic_vectordb._create_fallback_sections`, not in the assembler). -/
theorem c1_no_equal_thirds_placeholder_fallback :
    extractCourseInfo proseInput =
      [ ("section1_intro_duration", str ("Thông tin giới thiệu và thời lượng khóa học.")),
        ("section2_objectives_audience", str ("Thông tin mục tiêu và đối tượng khóa học.")),
        ("section3_content", str ("Nội dung khóa học: Thông tin chi tiết về chương trình học.")) ] := by
  rw [extractCourseInfo_of_ge proseInput proseInput_strip]
  unfold createFixedSections
  simp only [proseInput_clean]
  rw [extractPreciseSection1_raw, extractPreciseSection2_raw, extractPreciseSection3_raw,
    proseInput_s1, proseInput_s2, proseInput_s3]
